import Mathlib

/-!
Shallow embedding of the UDP password-generation service
(client validators, server generators, wire records, server loop).

The C library rand() is modelled as a pure stream of natural numbers
together with a position: each call to rand reads the stream at the
current position and advances it.  The stream itself is the hidden
PRNG sequence fixed when the process is (implicitly) seeded; replacing
the stream would correspond to a call to srand, which the program
never performs.

Characters and buffer bytes are modelled as natural numbers (the byte
values); C strings are lists of the bytes that precede the first null
terminator unless stated otherwise.
-/

/-- Hidden state of the C library pseudo-random source: the infinite
draw sequence fixed at seeding time, and the index of the next draw. -/
structure RandState where
  stream : Nat → Nat
  pos : Nat

/-- Model of rand(): return the next value of the sequence and advance. -/
def rand (s : RandState) : Nat × RandState :=
  (s.stream s.pos, ⟨s.stream, s.pos + 1⟩)

/-- Digit charset 0-9 (byte values 48..57). -/
def numeric_charset : List Nat :=
  ("0123456789".toList).map Char.toNat

/-- Lowercase letter charset a-z (byte values 97..122). -/
def alpha_charset : List Nat :=
  ("abcdefghijklmnopqrstuvwxyz".toList).map Char.toNat

/-- Union of the digit and lowercase letter charsets. -/
def mixed_charset : List Nat := numeric_charset ++ alpha_charset

/-- Charset of generate_secure, transcribed from the C string literal
in password.c (72 characters). -/
def secure_charset : List Nat :=
  ("abcdefghijklmnopqrstuvwxyzABCDEFGHIJKLMNOPQRSTUVWXYZ0123456789!@#$%^&*()".toList).map Char.toNat

/-- Charset of generate_unambiguous, transcribed from the C string
literal in password.c (57 characters). -/
def unambiguous_charset : List Nat :=
  ("abcdefghjkmnpqrtuvwxyACDEFGHJKLMNPQRTUVWXY34679!@#$%^&*()".toList).map Char.toNat

/-- The excluded visually-similar glyphs named by the specification. -/
def excluded_glyphs : List Nat :=
  ("0Oo1lIi2Zz5Ss8B".toList).map Char.toNat

/-- One character of generate_numeric: the C expression 48 + rand() % 10. -/
def numeric_char (s : RandState) : Nat × RandState :=
  let p := rand s
  (48 + p.1 % 10, p.2)

/-- One character of generate_alpha: the C expression 97 + rand() % 26. -/
def alpha_char (s : RandState) : Nat × RandState :=
  let p := rand s
  (97 + p.1 % 26, p.2)

/-- One character of generate_mixed: the C conditional expression
(rand() % 2) selecting a letter draw or a digit draw; the condition is
evaluated first, then exactly one further rand() call happens in the
chosen arm. -/
def mixed_char (s : RandState) : Nat × RandState :=
  let p := rand s
  if p.1 % 2 ≠ 0 then
    let q := rand p.2
    (97 + q.1 % 26, q.2)
  else
    let q := rand p.2
    (48 + q.1 % 10, q.2)

/-- One character drawn by index from a fixed charset: the C expression
charset[rand() % (sizeof(charset) - 1)]. -/
def charset_char (cs : List Nat) (s : RandState) : Nat × RandState :=
  let p := rand s
  (cs.getD (p.1 % cs.length) 0, p.2)

/-- The character-filling for loop shared by all C generators: produce
n characters by iterating the draw function, threading the random
state left to right exactly as the C loop does. -/
def genLoop (draw : RandState → Nat × RandState) : Nat → RandState → List Nat × RandState
  | 0, s => ([], s)
  | n + 1, s =>
    let p := draw s
    let q := genLoop draw n p.2
    (p.1 :: q.1, q.2)

/-- Overwriting the leading bytes of a buffer with new content, as the
C generators write password[0..length] into the caller buffer. -/
def writeBytes (buf content : List Nat) : List Nat :=
  content ++ buf.drop content.length

/-- Model of generate_numeric: fill length characters and a null
terminator into the buffer. -/
def generate_numeric (buf : List Nat) (len : Nat) (s : RandState) : List Nat × RandState :=
  let p := genLoop numeric_char len s
  (writeBytes buf (p.1 ++ [0]), p.2)

/-- Model of generate_alpha. -/
def generate_alpha (buf : List Nat) (len : Nat) (s : RandState) : List Nat × RandState :=
  let p := genLoop alpha_char len s
  (writeBytes buf (p.1 ++ [0]), p.2)

/-- Model of generate_mixed. -/
def generate_mixed (buf : List Nat) (len : Nat) (s : RandState) : List Nat × RandState :=
  let p := genLoop mixed_char len s
  (writeBytes buf (p.1 ++ [0]), p.2)

/-- Model of generate_secure. -/
def generate_secure (buf : List Nat) (len : Nat) (s : RandState) : List Nat × RandState :=
  let p := genLoop (charset_char secure_charset) len s
  (writeBytes buf (p.1 ++ [0]), p.2)

/-- Model of generate_unambiguous. -/
def generate_unambiguous (buf : List Nat) (len : Nat) (s : RandState) : List Nat × RandState :=
  let p := genLoop (charset_char unambiguous_charset) len s
  (writeBytes buf (p.1 ++ [0]), p.2)

/-- Underlying integer value of the C enum constant NUMERIC. -/
def NUMERIC : Nat := 0

/-- Underlying integer value of the C enum constant ALPHA. -/
def ALPHA : Nat := 1

/-- Underlying integer value of the C enum constant MIXED. -/
def MIXED : Nat := 2

/-- Underlying integer value of the C enum constant SECURE. -/
def SECURE : Nat := 3

/-- Underlying integer value of the C enum constant UNAMBIGUOUS. -/
def UNAMBIGUOUS : Nat := 4

/-- Model of generate_password: the C switch over the PasswordType
enum value.  The switch has no default branch, so a value outside the
five enumerated constants falls through the whole switch and the call
returns with the buffer and random state untouched. -/
def generate_password (buf : List Nat) (t : Nat) (len : Nat) (s : RandState) :
    List Nat × RandState :=
  if t = NUMERIC then generate_numeric buf len s
  else if t = ALPHA then generate_alpha buf len s
  else if t = MIXED then generate_mixed buf len s
  else if t = SECURE then generate_secure buf len s
  else if t = UNAMBIGUOUS then generate_unambiguous buf len s
  else (buf, s)

/-- The charset the specification associates with each enum value. -/
def charsetOfType (t : Nat) : List Nat :=
  if t = NUMERIC then numeric_charset
  else if t = ALPHA then alpha_charset
  else if t = MIXED then mixed_charset
  else if t = SECURE then secure_charset
  else if t = UNAMBIGUOUS then unambiguous_charset
  else []

/-- Model of C tolower for byte values: fold an uppercase ASCII letter
to its lowercase form, leave every other byte unchanged. -/
def tolower (c : Nat) : Nat :=
  if 65 ≤ c ∧ c ≤ 90 then c + 32 else c

/-- Model of C isdigit on byte values. -/
def isdigitB (c : Nat) : Bool :=
  decide (48 ≤ c ∧ c ≤ 57)

/-- Model of C isspace on byte values. -/
def isspaceB (c : Nat) : Bool :=
  decide (c = 32 ∨ (9 ≤ c ∧ c ≤ 13))

/-- Decimal value of a list of digit bytes. -/
def digits_value (l : List Nat) : Nat :=
  l.foldl (fun a c => a * 10 + (c - 48)) 0

/-- Model of C atoi on the bytes of a string: skip leading whitespace,
read an optional sign, then the longest digit prefix; an empty
conversion yields 0.  Integer overflow is not modelled. -/
def atoi (l : List Nat) : Int :=
  let t := l.dropWhile isspaceB
  match t with
  | [] => 0
  | c :: rest =>
    if c = 45 then -(digits_value (rest.takeWhile isdigitB) : Int)
    else if c = 43 then (digits_value (rest.takeWhile isdigitB) : Int)
    else (digits_value (t.takeWhile isdigitB) : Int)

/-- Model of keep_generating in the client password library: the C
expression tolower(type) != tolower(type_for_ending). -/
def keep_generating (t t_for_ending : Nat) : Bool :=
  decide (tolower t ≠ tolower t_for_ending)

/-- Model of strchr over a null-terminated string whose pre-terminator
bytes are the given list: scan for the byte, and note that strchr also
matches the terminator itself when the sought byte is 0. -/
def strchr_hit : List Nat → Nat → Bool
  | [], c => decide (c = 0)
  | b :: rest, c => if b = c then true else strchr_hit rest c

/-- Model of control_type in the client password library: the C
expression strchr(allowed_type, type) != NULL. -/
def control_type (allowed_type : List Nat) (t : Nat) : Bool :=
  strchr_hit allowed_type t

/-- Model of control_length: every pre-terminator byte must satisfy
isdigit, then the atoi value is compared with the bounds. -/
def control_length (l : List Nat) (min_length max_length : Int) : Bool :=
  if l.all isdigitB then
    decide (min_length ≤ atoi l ∧ atoi l ≤ max_length)
  else false

/-- The allowed type codes n a m s u as bytes. -/
def namsu_codes : List Nat := [110, 97, 109, 115, 117]

/-- Protocol constant BUFFER_SIZE from protocol.h. -/
def BUFFER_SIZE : Nat := 1024

/-- Protocol constant MAX_PASSWORD_LENGTH from protocol.h. -/
def MAX_PASSWORD_LENGTH : Nat := 32

/-- Protocol constant MIN_PASSWORD_LENGTH from protocol.h. -/
def MIN_PASSWORD_LENGTH : Nat := 6

/-- The PasswordRequest record: a one-byte type code and a
BUFFER_SIZE-byte length field holding a null-terminated digit string.
A well-formed record has exactly BUFFER_SIZE bytes in the field. -/
structure PasswordRequest where
  type : Nat
  length : List Nat

/-- Size in bytes of the PasswordRequest struct on the wire: the type
byte followed by the length array, with no padding. -/
def sizeof_PasswordRequest : Nat := 1 + BUFFER_SIZE

/-- Size in bytes of the PasswordResponse struct on the wire. -/
def sizeof_PasswordResponse : Nat := MAX_PASSWORD_LENGTH + 1

/-- The bytes of a C string stored in a fixed-size field: everything
before the first null terminator. -/
def cstring (l : List Nat) : List Nat :=
  l.takeWhile (fun c => decide (c ≠ 0))

/-- Wire encoding of a request, as sendto transmits the raw struct
bytes: the type byte followed by the length field bytes. -/
def encode_request (r : PasswordRequest) : List Nat :=
  r.type :: r.length

/-- Wire decoding of a request, as recvfrom fills the struct from the
datagram bytes: byte 0 is the type, the next BUFFER_SIZE bytes are the
length field. -/
def decode_request (bytes : List Nat) : PasswordRequest :=
  { type := bytes.headD 0, length := (bytes.drop 1).take BUFFER_SIZE }

/-- The switch in handle_password_request mapping the received type
byte, lowercase-folded, to a PasswordType value; the default branch
yields NUMERIC. -/
def request_type_switch (c : Nat) : Nat :=
  if tolower c = 110 then NUMERIC
  else if tolower c = 97 then ALPHA
  else if tolower c = 109 then MIXED
  else if tolower c = 115 then SECURE
  else if tolower c = 117 then UNAMBIGUOUS
  else NUMERIC

/-- Model of handle_password_request: parse the length field with
atoi, map the type byte through the switch, and run the generator on
the response buffer.  A negative atoi result makes the C character
loop run zero times, which toNat reproduces. -/
def handle_password_request (req : PasswordRequest) (respBuf : List Nat) (s : RandState) :
    List Nat × RandState :=
  generate_password respBuf (request_type_switch req.type)
    ((atoi (cstring req.length)).toNat) s

/-- The abort decision of the server receive_request: the call fails
exactly when recvfrom returns a negative value. -/
def receive_request_ok (rcv_msg_size : Int) : Bool :=
  !(decide (rcv_msg_size < 0))

/-- The abort decision of the client receive_response: the call fails
exactly when recvfrom returns a negative value. -/
def receive_response_ok (rcv_msg_size : Int) : Bool :=
  !(decide (rcv_msg_size < 0))

/-- One iteration of the server main loop on a decoded request: the
response buffer starts as the junk bytes of the uninitialized stack
struct and is filled by handle_password_request. -/
def server_step (junk : List Nat) (req : PasswordRequest) (s : RandState) :
    List Nat × RandState :=
  handle_password_request req junk s

/-- The server main loop over a finite list of incoming requests,
threading the one process-wide random state through the iterations. -/
def server_loop (junk : List Nat) : List PasswordRequest → RandState → List (List Nat) × RandState
  | [], s => ([], s)
  | r :: rs, s =>
    let p := server_step junk r s
    let q := server_loop junk rs p.2
    (p.1 :: q.1, q.2)

/-- Two-stage reference character draw, written from the words of the
specification: first an unbiased binary choice between the letter
charset and the digit charset, then a uniform index into the chosen
charset. -/
def mixed_two_stage_ref_char (s : RandState) : Nat × RandState :=
  let p := rand s
  if p.1 % 2 ≠ 0 then
    let q := rand p.2
    (alpha_charset.getD (q.1 % alpha_charset.length) 0, q.2)
  else
    let q := rand p.2
    (numeric_charset.getD (q.1 % numeric_charset.length) 0, q.2)

/-- Single uniform draw over the 36-character union, written from the
words of the specification as the distribution Mixed must not have. -/
def mixed_union_ref_char (s : RandState) : Nat × RandState :=
  let p := rand s
  (mixed_charset.getD (p.1 % mixed_charset.length) 0, p.2)

/-- The concrete request of the round-trip property: type code s and
length string 16, null-padded to the field width. -/
def sample_request : PasswordRequest :=
  { type := 115, length := [49, 54] ++ List.replicate 1022 0 }

/-! Helper lemmas shared by the claim theorems. -/

theorem getD_mem_of_lt (l : List Nat) (i d : Nat) (h : i < l.length) :
    l.getD i d ∈ l := by
  induction l generalizing i with
  | nil => simp at h
  | cons a t ih =>
    cases i with
    | zero => simp [List.getD]
    | succ j =>
      simp only [List.getD_cons_succ]
      exact List.mem_cons_of_mem a (ih j (by simpa using h))

theorem genLoop_len (d : RandState → Nat × RandState) (n : Nat) (s : RandState) :
    ((genLoop d n s).1).length = n := by
  induction n generalizing s with
  | zero => rfl
  | succ m ih => simp [genLoop, ih]

theorem genLoop_mem (d : RandState → Nat × RandState) (P : Nat → Prop)
    (hd : ∀ s, P (d s).1) (n : Nat) (s : RandState) :
    ∀ c ∈ (genLoop d n s).1, P c := by
  induction n generalizing s with
  | zero => intro c hc; simp [genLoop] at hc
  | succ m ih =>
    intro c hc
    simp only [genLoop, List.mem_cons] at hc
    rcases hc with h | h
    · exact h ▸ hd s
    · exact ih _ c h

theorem genLoop_stream (d : RandState → Nat × RandState)
    (hd : ∀ s, ((d s).2).stream = s.stream) (n : Nat) (s : RandState) :
    ((genLoop d n s).2).stream = s.stream := by
  induction n generalizing s with
  | zero => rfl
  | succ m ih => simp only [genLoop]; rw [ih, hd]

theorem genLoop_pos (d : RandState → Nat × RandState)
    (hd : ∀ s, s.pos ≤ ((d s).2).pos) (n : Nat) (s : RandState) :
    s.pos ≤ ((genLoop d n s).2).pos := by
  induction n generalizing s with
  | zero => exact Nat.le_refl _
  | succ m ih => exact Nat.le_trans (hd s) (ih _)

theorem genLoop_congr (d1 d2 : RandState → Nat × RandState)
    (h : ∀ s, d1 s = d2 s) (n : Nat) (s : RandState) :
    genLoop d1 n s = genLoop d2 n s := by
  induction n generalizing s with
  | zero => rfl
  | succ m ih => simp only [genLoop, h s, ih]

theorem numeric_char_mem (s : RandState) : (numeric_char s).1 ∈ numeric_charset := by
  have hb : ∀ k, k < 10 → 48 + k ∈ numeric_charset := by decide
  exact hb _ (Nat.mod_lt _ (by decide))

theorem alpha_char_mem (s : RandState) : (alpha_char s).1 ∈ alpha_charset := by
  have hb : ∀ k, k < 26 → 97 + k ∈ alpha_charset := by decide
  exact hb _ (Nat.mod_lt _ (by decide))

theorem mixed_char_mem (s : RandState) : (mixed_char s).1 ∈ mixed_charset := by
  have h1 : ∀ k, k < 26 → 97 + k ∈ mixed_charset := by decide
  have h2 : ∀ k, k < 10 → 48 + k ∈ mixed_charset := by decide
  simp only [mixed_char]
  split
  · exact h1 _ (Nat.mod_lt _ (by decide))
  · exact h2 _ (Nat.mod_lt _ (by decide))

theorem charset_char_mem (cs : List Nat) (hcs : cs ≠ []) (s : RandState) :
    (charset_char cs s).1 ∈ cs := by
  have hlen : 0 < cs.length := List.length_pos.mpr hcs
  exact getD_mem_of_lt cs _ 0 (Nat.mod_lt _ hlen)

theorem rand_stream (s : RandState) : ((rand s).2).stream = s.stream := rfl

theorem rand_pos (s : RandState) : s.pos ≤ ((rand s).2).pos := Nat.le_succ _

theorem numeric_char_stream (s : RandState) : ((numeric_char s).2).stream = s.stream := rfl

theorem alpha_char_stream (s : RandState) : ((alpha_char s).2).stream = s.stream := rfl

theorem mixed_char_stream (s : RandState) : ((mixed_char s).2).stream = s.stream := by
  simp only [mixed_char]
  split <;> rfl

theorem charset_char_stream (cs : List Nat) (s : RandState) :
    ((charset_char cs s).2).stream = s.stream := rfl

theorem numeric_char_pos (s : RandState) : s.pos ≤ ((numeric_char s).2).pos := Nat.le_succ _

theorem alpha_char_pos (s : RandState) : s.pos ≤ ((alpha_char s).2).pos := Nat.le_succ _

theorem mixed_char_pos (s : RandState) : s.pos ≤ ((mixed_char s).2).pos := by
  simp only [mixed_char]
  split <;> exact Nat.le_add_right s.pos 2

theorem charset_char_pos (cs : List Nat) (s : RandState) :
    s.pos ≤ ((charset_char cs s).2).pos := Nat.le_succ _

theorem take_len_append (cs ys : List Nat) (len : Nat) (h : cs.length = len) :
    (cs ++ ys).take len = cs := by
  subst h
  exact List.take_left _ _

theorem gen_out_spec (d : RandState → Nat × RandState) (P : Nat → Prop)
    (hd : ∀ s, P (d s).1) (buf : List Nat) (len : Nat) (s : RandState) :
    ((writeBytes buf ((genLoop d len s).1 ++ [0])).take len).length = len ∧
    (writeBytes buf ((genLoop d len s).1 ++ [0])).get? len = some 0 ∧
    ∀ c ∈ (writeBytes buf ((genLoop d len s).1 ++ [0])).take len, P c := by
  have hlen := genLoop_len d len s
  have htake : (writeBytes buf ((genLoop d len s).1 ++ [0])).take len = (genLoop d len s).1 := by
    unfold writeBytes
    rw [List.append_assoc]
    exact take_len_append _ _ _ hlen
  have hget : (writeBytes buf ((genLoop d len s).1 ++ [0])).get? len = some 0 := by
    unfold writeBytes
    rw [List.append_assoc, List.get?_eq_getElem?, List.getElem?_append_right (le_of_eq hlen)]
    simp [hlen]
  refine ⟨by rw [htake, hlen], hget, ?_⟩
  intro c hc
  rw [htake] at hc
  exact genLoop_mem d P hd len s c hc

theorem generate_password_numeric (buf : List Nat) (len : Nat) (s : RandState) :
    generate_password buf NUMERIC len s = generate_numeric buf len s := rfl

theorem generate_password_alpha (buf : List Nat) (len : Nat) (s : RandState) :
    generate_password buf ALPHA len s = generate_alpha buf len s := rfl

theorem generate_password_mixed (buf : List Nat) (len : Nat) (s : RandState) :
    generate_password buf MIXED len s = generate_mixed buf len s := rfl

theorem generate_password_secure (buf : List Nat) (len : Nat) (s : RandState) :
    generate_password buf SECURE len s = generate_secure buf len s := rfl

theorem generate_password_unambiguous (buf : List Nat) (len : Nat) (s : RandState) :
    generate_password buf UNAMBIGUOUS len s = generate_unambiguous buf len s := rfl

theorem charsetOfType_numeric : charsetOfType NUMERIC = numeric_charset := rfl

theorem charsetOfType_alpha : charsetOfType ALPHA = alpha_charset := rfl

theorem charsetOfType_mixed : charsetOfType MIXED = mixed_charset := rfl

theorem charsetOfType_secure : charsetOfType SECURE = secure_charset := rfl

theorem charsetOfType_unambiguous : charsetOfType UNAMBIGUOUS = unambiguous_charset := rfl

theorem numeric_charset_no_zero : ∀ c ∈ numeric_charset, c ≠ 0 := by decide

theorem alpha_charset_no_zero : ∀ c ∈ alpha_charset, c ≠ 0 := by decide

theorem mixed_charset_no_zero : ∀ c ∈ mixed_charset, c ≠ 0 := by decide

theorem secure_charset_no_zero : ∀ c ∈ secure_charset, c ≠ 0 := by decide

theorem unambiguous_charset_no_zero : ∀ c ∈ unambiguous_charset, c ≠ 0 := by decide

theorem unambiguous_charset_excludes : ∀ c ∈ unambiguous_charset, c ∉ excluded_glyphs := by
  decide

/-- C1: for every PasswordType among the five enum values and every length
in [6,32], generate_password writes a null-terminated string of exactly
length characters into the output buffer, every character belonging to the
defined charset of that type, and for UNAMBIGUOUS no output character lies
in the excluded-glyph set, for any state of the random source. -/
theorem C1_generate_password_charset (t len : Nat) (buf : List Nat) (s : RandState)
    (ht : t ∈ [NUMERIC, ALPHA, MIXED, SECURE, UNAMBIGUOUS])
    (hmin : 6 ≤ len) (hmax : len ≤ 32) :
    (((generate_password buf t len s).1).take len).length = len ∧
    ((generate_password buf t len s).1).get? len = some 0 ∧
    (∀ c ∈ ((generate_password buf t len s).1).take len, c ∈ charsetOfType t ∧ c ≠ 0) ∧
    (t = UNAMBIGUOUS → ∀ c ∈ ((generate_password buf t len s).1).take len,
      c ∉ excluded_glyphs) := by
  fin_cases ht
  · rw [generate_password_numeric, charsetOfType_numeric]
    obtain ⟨h1, h2, h3⟩ :=
      gen_out_spec numeric_char (fun c => c ∈ numeric_charset) numeric_char_mem buf len s
    simp only [generate_numeric]
    exact ⟨h1, h2, fun c hc => ⟨h3 c hc, numeric_charset_no_zero c (h3 c hc)⟩,
      fun hEq => absurd hEq (by decide)⟩
  · rw [generate_password_alpha, charsetOfType_alpha]
    obtain ⟨h1, h2, h3⟩ :=
      gen_out_spec alpha_char (fun c => c ∈ alpha_charset) alpha_char_mem buf len s
    simp only [generate_alpha]
    exact ⟨h1, h2, fun c hc => ⟨h3 c hc, alpha_charset_no_zero c (h3 c hc)⟩,
      fun hEq => absurd hEq (by decide)⟩
  · rw [generate_password_mixed, charsetOfType_mixed]
    obtain ⟨h1, h2, h3⟩ :=
      gen_out_spec mixed_char (fun c => c ∈ mixed_charset) mixed_char_mem buf len s
    simp only [generate_mixed]
    exact ⟨h1, h2, fun c hc => ⟨h3 c hc, mixed_charset_no_zero c (h3 c hc)⟩,
      fun hEq => absurd hEq (by decide)⟩
  · rw [generate_password_secure, charsetOfType_secure]
    obtain ⟨h1, h2, h3⟩ :=
      gen_out_spec (charset_char secure_charset) (fun c => c ∈ secure_charset)
        (charset_char_mem secure_charset (by decide)) buf len s
    simp only [generate_secure]
    exact ⟨h1, h2, fun c hc => ⟨h3 c hc, secure_charset_no_zero c (h3 c hc)⟩,
      fun hEq => absurd hEq (by decide)⟩
  · rw [generate_password_unambiguous, charsetOfType_unambiguous]
    obtain ⟨h1, h2, h3⟩ :=
      gen_out_spec (charset_char unambiguous_charset) (fun c => c ∈ unambiguous_charset)
        (charset_char_mem unambiguous_charset (by decide)) buf len s
    simp only [generate_unambiguous]
    exact ⟨h1, h2, fun c hc => ⟨h3 c hc, unambiguous_charset_no_zero c (h3 c hc)⟩,
      fun _ => fun c hc => unambiguous_charset_excludes c (h3 c hc)⟩

/-- Witness for C1 at the UNAMBIGUOUS type, length 6, the identity
stream and an empty starting buffer. -/
theorem C1_witness :
    (UNAMBIGUOUS ∈ [NUMERIC, ALPHA, MIXED, SECURE, UNAMBIGUOUS] ∧ 6 ≤ 6 ∧ 6 ≤ 32) ∧
    ((((generate_password [] UNAMBIGUOUS 6 ⟨fun n => n, 0⟩).1).take 6).length = 6 ∧
    ((generate_password [] UNAMBIGUOUS 6 ⟨fun n => n, 0⟩).1).get? 6 = some 0 ∧
    (∀ c ∈ ((generate_password [] UNAMBIGUOUS 6 ⟨fun n => n, 0⟩).1).take 6,
      c ∈ charsetOfType UNAMBIGUOUS ∧ c ≠ 0) ∧
    (UNAMBIGUOUS = UNAMBIGUOUS →
      ∀ c ∈ ((generate_password [] UNAMBIGUOUS 6 ⟨fun n => n, 0⟩).1).take 6,
        c ∉ excluded_glyphs)) :=
  ⟨⟨by decide, by decide, by decide⟩,
    C1_generate_password_charset UNAMBIGUOUS 6 [] ⟨fun n => n, 0⟩ (by decide) (by decide)
      (by decide)⟩

/-- C10: for every PasswordType value outside the five enumerated
constants, the switch in generate_password has no default branch, so the
call performs no write: the output buffer (and the random state) are
returned exactly as they were. -/
theorem C10_out_of_enum_no_write (t len : Nat) (buf : List Nat) (s : RandState)
    (ht : t ∉ [NUMERIC, ALPHA, MIXED, SECURE, UNAMBIGUOUS]) :
    generate_password buf t len s = (buf, s) := by
  simp only [List.mem_cons, List.not_mem_nil, or_false, not_or] at ht
  obtain ⟨h0, h1, h2, h3, h4⟩ := ht
  simp [generate_password, h0, h1, h2, h3, h4]

/-- Witness for C10 at the out-of-enum type value 7. -/
theorem C10_witness :
    (7 ∉ [NUMERIC, ALPHA, MIXED, SECURE, UNAMBIGUOUS]) ∧
    generate_password [1, 2, 3] 7 10 ⟨fun n => n, 0⟩ = ([1, 2, 3], ⟨fun n => n, 0⟩) :=
  ⟨by decide, C10_out_of_enum_no_write 7 10 [1, 2, 3] ⟨fun n => n, 0⟩ (by decide)⟩

/-- C2 counterexample: the claim asserts case-insensitive acceptance, but
control_type is a plain strchr scan, so the uppercase letter N (byte 78)
is rejected although its lowercase fold n (byte 110) is in the candidate
set. -/
theorem C2_counterexample_uppercase_rejected :
    control_type namsu_codes 78 = false ∧ tolower 78 ∈ namsu_codes := by decide

/-- C2 amended: control_type returns true iff the character itself occurs
byte-for-byte in the candidate set, or is the null byte (strchr also
matches the string terminator); the comparison is case-sensitive. -/
theorem C2_control_type_case_sensitive (allowed : List Nat) (c : Nat) :
    control_type allowed c = true ↔ (c ∈ allowed ∨ c = 0) := by
  induction allowed with
  | nil => simp [control_type, strchr_hit]
  | cons b rest ih =>
    by_cases hb : b = c
    · simp [control_type, strchr_hit, hb]
    · simp only [control_type, strchr_hit, hb, if_false, List.mem_cons]
      simp only [control_type] at ih
      rw [ih]
      constructor
      · intro h
        rcases h with h | h
        · exact Or.inl (Or.inr h)
        · exact Or.inr h
      · intro h
        rcases h with (h | h) | h
        · exact absurd h.symm hb
        · exact Or.inl h
        · exact Or.inr h

/-- C3 counterexample: with bounds min = 0 and max = 0 the empty string
is accepted, because the digit scan passes vacuously and atoi parses the
empty string as 0, while the claim demands rejection of the empty string
for every pair of bounds. -/
theorem C3_counterexample_empty_accepted : control_length [] 0 0 = true := by decide

/-- C3 amended: control_length returns false if the string holds any
non-digit byte (whitespace and sign characters included); otherwise,
the empty string included (it parses as 0), it returns true iff the atoi
value lies in [min, max].  With min 6 and max 32 it rejects the empty
string, 5 and 33, and accepts 6 and 32. -/
theorem C3_control_length_digits_range :
    (∀ (raw : List Nat) (mi ma : Int),
      raw.all isdigitB = false → control_length raw mi ma = false) ∧
    (∀ (raw : List Nat) (mi ma : Int), raw.all isdigitB = true →
      (control_length raw mi ma = true ↔ (mi ≤ atoi raw ∧ atoi raw ≤ ma))) ∧
    control_length [] 6 32 = false ∧
    control_length [53] 6 32 = false ∧
    control_length [51, 51] 6 32 = false ∧
    control_length [54] 6 32 = true ∧
    control_length [51, 50] 6 32 = true ∧
    control_length [32, 54] 6 32 = false ∧
    control_length [43, 54] 6 32 = false := by
  refine ⟨?_, ?_, by decide, by decide, by decide, by decide, by decide, by decide, by decide⟩
  · intro raw mi ma h
    simp [control_length, h]
  · intro raw mi ma h
    simp [control_length, h]

/-- C6 counterexample: a 5-byte datagram differs from both expected
record sizes, yet both receive decisions report success, so the partial
record is processed instead of aborting the exchange. -/
theorem C6_counterexample_short_datagram :
    receive_request_ok 5 = true ∧ (5 : Int) ≠ (sizeof_PasswordRequest : Int) ∧
    receive_response_ok 5 = true ∧ (5 : Int) ≠ (sizeof_PasswordResponse : Int) := by decide

/-- C6 amended: the receiving side aborts exactly when recvfrom reports a
socket-level failure, that is a negative return value; a datagram whose
size merely differs from the expected record size is not detected. -/
theorem C6_receive_abort_only_socket_failure (n : Int) :
    (receive_request_ok n = false ↔ n < 0) ∧ (receive_response_ok n = false ↔ n < 0) := by
  constructor <;> simp [receive_request_ok, receive_response_ok]

/-- C8: encoding a well-formed PasswordRequest as the raw struct bytes
and decoding those bytes yields the identical record. -/
theorem C8_encode_decode_round_trip (r : PasswordRequest)
    (h : r.length.length = BUFFER_SIZE) :
    decode_request (encode_request r) = r := by
  cases r with
  | mk t l =>
    simp only [encode_request, decode_request, List.headD, List.drop_succ_cons,
      List.drop_zero]
    simp only at h
    rw [List.take_of_length_le (le_of_eq h)]

theorem sample_request_wf : sample_request.length.length = BUFFER_SIZE := by
  show ([49, 54] ++ List.replicate 1022 0).length = 1024
  rw [List.length_append, List.length_replicate]
  decide

/-- Witness for C8 at the concrete record with type code s (byte 115)
and length string 16, null-padded. -/
theorem C8_witness :
    sample_request.length.length = BUFFER_SIZE ∧
    decode_request (encode_request sample_request) = sample_request :=
  ⟨sample_request_wf, C8_encode_decode_round_trip sample_request sample_request_wf⟩

/-- C9: keep_generating returns true iff the two characters differ after
lowercase folding; in particular it is false on the pairs (q, q) and
(Q, q) and true on (n, q). -/
theorem C9_keep_generating_case_insensitive :
    (∀ a b : Nat, keep_generating a b = true ↔ tolower a ≠ tolower b) ∧
    keep_generating 113 113 = false ∧
    keep_generating 81 113 = false ∧
    keep_generating 110 113 = true := by
  refine ⟨fun a b => ?_, by decide, by decide, by decide⟩
  simp [keep_generating]

theorem generate_password_stream (buf : List Nat) (t len : Nat) (s : RandState) :
    ((generate_password buf t len s).2).stream = s.stream := by
  unfold generate_password
  split_ifs
  · exact genLoop_stream numeric_char numeric_char_stream len s
  · exact genLoop_stream alpha_char alpha_char_stream len s
  · exact genLoop_stream mixed_char mixed_char_stream len s
  · exact genLoop_stream (charset_char secure_charset) (charset_char_stream _) len s
  · exact genLoop_stream (charset_char unambiguous_charset) (charset_char_stream _) len s
  · rfl

theorem generate_password_pos (buf : List Nat) (t len : Nat) (s : RandState) :
    s.pos ≤ ((generate_password buf t len s).2).pos := by
  unfold generate_password
  split_ifs
  · exact genLoop_pos numeric_char numeric_char_pos len s
  · exact genLoop_pos alpha_char alpha_char_pos len s
  · exact genLoop_pos mixed_char mixed_char_pos len s
  · exact genLoop_pos (charset_char secure_charset) (charset_char_pos _) len s
  · exact genLoop_pos (charset_char unambiguous_charset) (charset_char_pos _) len s
  · exact Nat.le_refl _

/-- C4: the server maps the received type byte case-insensitively onto
the five enum values, and every byte whose lowercase fold is none of
n, a, m, s, u falls to the default branch and is mapped to NUMERIC
rather than rejected; in particular a request with type x (byte 120)
and length string 8 yields an 8-character all-digit password. -/
theorem C4_server_type_mapping :
    (∀ c : Nat, tolower c = 110 → request_type_switch c = NUMERIC) ∧
    (∀ c : Nat, tolower c = 97 → request_type_switch c = ALPHA) ∧
    (∀ c : Nat, tolower c = 109 → request_type_switch c = MIXED) ∧
    (∀ c : Nat, tolower c = 115 → request_type_switch c = SECURE) ∧
    (∀ c : Nat, tolower c = 117 → request_type_switch c = UNAMBIGUOUS) ∧
    (∀ c : Nat, tolower c ∉ namsu_codes → request_type_switch c = NUMERIC) ∧
    (∀ (rest buf : List Nat) (s : RandState),
      (((handle_password_request (PasswordRequest.mk 120 (56 :: 0 :: rest)) buf s).1).take 8).length = 8 ∧
      ((handle_password_request (PasswordRequest.mk 120 (56 :: 0 :: rest)) buf s).1).get? 8 = some 0 ∧
      ∀ c ∈ ((handle_password_request (PasswordRequest.mk 120 (56 :: 0 :: rest)) buf s).1).take 8,
        c ∈ numeric_charset) := by
  refine ⟨?_, ?_, ?_, ?_, ?_, ?_, ?_⟩
  · intro c h; simp [request_type_switch, h]
  · intro c h; simp [request_type_switch, h]
  · intro c h; simp [request_type_switch, h]
  · intro c h; simp [request_type_switch, h]
  · intro c h; simp [request_type_switch, h]
  · intro c h
    simp only [namsu_codes, List.mem_cons, List.not_mem_nil, or_false, not_or] at h
    obtain ⟨h1, h2, h3, h4, h5⟩ := h
    simp [request_type_switch, h1, h2, h3, h4, h5]
  · intro rest buf s
    have hc : cstring (56 :: 0 :: rest) = [56] := by simp [cstring]
    have hsw : request_type_switch 120 = NUMERIC := by decide
    have hstep : handle_password_request (PasswordRequest.mk 120 (56 :: 0 :: rest)) buf s
        = generate_numeric buf 8 s := by
      show generate_password buf (request_type_switch 120)
          ((atoi (cstring (56 :: 0 :: rest))).toNat) s = generate_numeric buf 8 s
      rw [hc, hsw]
      have h8 : ((atoi [56]).toNat) = 8 := by decide
      rw [h8, generate_password_numeric]
    rw [hstep]
    obtain ⟨h1, h2, h3⟩ :=
      gen_out_spec numeric_char (fun c => c ∈ numeric_charset) numeric_char_mem buf 8 s
    simp only [generate_numeric]
    exact ⟨h1, h2, h3⟩

/-- C5: the random source is fixed exactly once, at process start, as
the process-wide state with position 0; no call path of the server ever
replaces the draw sequence (no reseeding exists in the program), and the
second of two successive requests is handled from exactly the state the
first call left behind, at a position no earlier than where the first
call stopped, so the two calls never restart an identical freshly-seeded
sequence. -/
theorem C5_seeded_once_threading :
    (∀ (junk : List Nat) (req : PasswordRequest) (s : RandState),
      ((server_step junk req s).2).stream = s.stream) ∧
    (∀ (junk : List Nat) (req : PasswordRequest) (s : RandState),
      s.pos ≤ ((server_step junk req s).2).pos) ∧
    (∀ (junk : List Nat) (r1 r2 : PasswordRequest) (g : Nat → Nat),
      server_loop junk [r1, r2] ⟨g, 0⟩ =
        ([(server_step junk r1 ⟨g, 0⟩).1,
          (server_step junk r2 (server_step junk r1 ⟨g, 0⟩).2).1],
          (server_step junk r2 (server_step junk r1 ⟨g, 0⟩).2).2)) := by
  refine ⟨?_, ?_, ?_⟩
  · intro junk req s
    exact generate_password_stream junk _ _ s
  · intro junk req s
    exact generate_password_pos junk _ _ s
  · intro junk r1 r2 g
    rfl

theorem mixed_char_eq_two_stage (s : RandState) : mixed_char s = mixed_two_stage_ref_char s := by
  have h1 : ∀ k, k < 26 → 97 + k = alpha_charset.getD k 0 := by decide
  have h2 : ∀ k, k < 10 → 48 + k = numeric_charset.getD k 0 := by decide
  by_cases hc : (rand s).1 % 2 ≠ 0
  · simp only [mixed_char, mixed_two_stage_ref_char, if_pos hc]
    have hl : alpha_charset.length = 26 := by decide
    rw [hl, ← h1 _ (Nat.mod_lt _ (by decide))]
  · simp only [mixed_char, mixed_two_stage_ref_char, if_neg hc]
    have hl : numeric_charset.length = 10 := by decide
    rw [hl, ← h2 _ (Nat.mod_lt _ (by decide))]

/-- C7: for every length in [6,32] and every random state, generate_mixed
equals the two-stage reference draw (fair binary choice between the two
charsets, then a uniform index into the chosen charset) at every
position, and it differs from a single uniform draw over the 36-character
union, exhibited on the constant stream of ones. -/
theorem C7_mixed_two_stage (len : Nat) (buf : List Nat) (s : RandState)
    (hmin : 6 ≤ len) (hmax : len ≤ 32) :
    generate_mixed buf len s =
      (writeBytes buf ((genLoop mixed_two_stage_ref_char len s).1 ++ [0]),
        (genLoop mixed_two_stage_ref_char len s).2) ∧
    (generate_mixed [] 6 ⟨fun n => 1, 0⟩).1 ≠
      writeBytes [] ((genLoop mixed_union_ref_char 6 ⟨fun n => 1, 0⟩).1 ++ [0]) := by
  constructor
  · simp only [generate_mixed]
    rw [genLoop_congr mixed_char mixed_two_stage_ref_char mixed_char_eq_two_stage len s]
  · decide

/-- Witness for C7 at length 6, the identity stream and an empty
starting buffer. -/
theorem C7_witness :
    (6 ≤ 6 ∧ 6 ≤ 32) ∧
    (generate_mixed [] 6 ⟨fun n => n, 0⟩ =
      (writeBytes [] ((genLoop mixed_two_stage_ref_char 6 ⟨fun n => n, 0⟩).1 ++ [0]),
        (genLoop mixed_two_stage_ref_char 6 ⟨fun n => n, 0⟩).2) ∧
    (generate_mixed [] 6 ⟨fun n => 1, 0⟩).1 ≠
      writeBytes [] ((genLoop mixed_union_ref_char 6 ⟨fun n => 1, 0⟩).1 ++ [0])) :=
  ⟨⟨by decide, by decide⟩, C7_mixed_two_stage 6 [] ⟨fun n => n, 0⟩ (by decide) (by decide)⟩
